import Mathlib

/-!
Shallow embedding of `src/ocp-worker/src/worker.js` (OCP Planning Director
Cloudflare Worker): the semantic reranking pipeline (`cosineSimilarity`,
`rerankChunks`, the batched embedding loop shared with `handleEmbed`) and the
request handler `handleAsk` with its boundary validation.

Modelling conventions:
* JavaScript numbers are modelled as real numbers (`ℝ`); IEEE NaN/overflow
  behaviour is out of scope.  `cosineSimilarity` in the source loops over the
  indices of its first argument; the embedding below agrees with the source
  whenever the two vectors have equal length (the only situation the spec and
  the claims consider).
* The embedding collaborator `env.AI.run` is a function from one batch of
  texts to `Option (List Vec)`; `none` models a thrown exception or a result
  without a well-formed `data` array.
* The text-generation collaborator (the `fetch` to the Claude API) is a
  function from the built user message to a `ClaudeResult`; `.httpError`
  models a non-ok HTTP response, `.ok none` a 200 response whose body lacks
  `content[0].text`.
* Dynamically-typed JSON fields are modelled with `Option`: `none` stands for
  an absent field or one of the wrong runtime type, and a missing/empty/
  non-string check in the source becomes the corresponding `Option`/emptiness
  check here.
-/

namespace OCP

/- ─── Constants (worker.js lines 13–19) ─── -/

def MAX_QUESTION_LENGTH : Nat := 1000
def MAX_CHUNKS_ACCEPTED : Nat := 100
def MAX_CHUNK_TEXT_LENGTH : Nat := 5000
def MAX_EMBED_TEXTS : Nat := 200
def MAX_EMBED_TEXT_LENGTH : Nat := 5000
def RERANK_TOP_N : Nat := 25
def EMBEDDING_BATCH_SIZE : Nat := 100

/- ─── Data model ─── -/

/-- A 384-dimension embedding vector as delivered by the collaborator
(dimension is not enforced by the worker, so none is enforced here). -/
abbrev Vec := List ℝ

/-- One call to the embedding collaborator (`env.AI.run` on one batch).
`none` models a thrown exception or a malformed (data-less) result. -/
abbrev EmbedFn := List String → Option (List Vec)

/-- A sanitized candidate passage (output of the filter/map at
worker.js lines 203–209). -/
structure Chunk where
  id : String
  sectionTitle : String
  text : String
deriving DecidableEq, Repr

/-- A raw candidate as received in the request body: each field may be absent
or of the wrong runtime type (`none`). A `null` array element is modelled by
a `RawChunk` whose fields are all `none`. -/
structure RawChunk where
  id : Option String
  sectionTitle : Option String
  text : Option String
deriving DecidableEq, Repr

/-- A chunk augmented with its similarity to the query
(worker.js lines 125–128). -/
structure ScoredChunk where
  chunk : Chunk
  similarity : ℝ

/- ─── Boundary sanitization (worker.js lines 202–209) ─── -/

/-- JavaScript `s.slice(0, n)`: the first `n` characters of `s`. -/
def sliceTo (s : String) (n : Nat) : String :=
  String.mk (s.data.take n)

/-- The filter at worker.js line 204:
`c && typeof c.id === "string" && typeof c.text === "string"`. -/
def isValidChunk (c : RawChunk) : Bool :=
  c.id.isSome && c.text.isSome

/-- The map at worker.js lines 205–209: truncate id to 50, sectionTitle to
200 (defaulting to "" when absent/non-string), text to
MAX_CHUNK_TEXT_LENGTH.  The `getD ""` on `id`/`text` never fires after
`isValidChunk`. -/
def sanitizeChunk (c : RawChunk) : Chunk :=
  { id := sliceTo (c.id.getD "") 50
    sectionTitle := sliceTo (c.sectionTitle.getD "") 200
    text := sliceTo (c.text.getD "") MAX_CHUNK_TEXT_LENGTH }

/-- worker.js lines 203–209: `chunks.filter(...).map(...)`. -/
def sanitizeChunks (chunks : List RawChunk) : List Chunk :=
  (chunks.filter isValidChunk).map sanitizeChunk

/- ─── Batched embedding loop (worker.js lines 114–120 and 164–170) ─── -/

/-- The loop `for (let i = 0; i < texts.length; i += EMBEDDING_BATCH_SIZE)`:
issue one collaborator call per slice of at most `EMBEDDING_BATCH_SIZE`
texts and concatenate the per-batch results in input order.  A failing batch
call (`none`) aborts the whole loop, as a thrown exception does in the
source. -/
def batchedEmbed (ai : EmbedFn) (texts : List String) : Option (List Vec) :=
  if h : texts = [] then some []
  else
    match ai (texts.take EMBEDDING_BATCH_SIZE) with
    | none => none
    | some batchResult =>
      match batchedEmbed ai (texts.drop EMBEDDING_BATCH_SIZE) with
      | none => none
      | some rest => some (batchResult ++ rest)
termination_by texts.length
decreasing_by
  simp only [List.length_drop]
  exact Nat.sub_lt (List.length_pos.mpr h) (by norm_num [EMBEDDING_BATCH_SIZE])

/- ─── Cosine similarity (worker.js lines 98–106) ─── -/

/-- The accumulator `dot` of the loop in `cosineSimilarity` (pairwise
product-sum; agrees with the source for equal-length vectors). -/
def dotProd : Vec → Vec → ℝ
  | a :: as, b :: bs => a * b + dotProd as bs
  | _, _ => 0

/-- worker.js line 105:
`dot / (Math.sqrt(normA) * Math.sqrt(normB) + 1e-8)`, with
`normA = dotProd a a` and `normB = dotProd b b` as accumulated by the loop. -/
noncomputable def cosineSimilarity (a b : Vec) : ℝ :=
  dotProd a b / (Real.sqrt (dotProd a a) * Real.sqrt (dotProd b b) + 1e-8)

/- ─── Semantic reranking (worker.js lines 109–136) ─── -/

/-- `scored.sort((a, b) => b.similarity - a.similarity)` — a stable
(V8 `Array.prototype.sort`) sort, descending by similarity. -/
noncomputable def sortBySimilarity (l : List ScoredChunk) : List ScoredChunk :=
  l.mergeSort (fun x y => decide (y.similarity ≤ x.similarity))

/-- Outcome of `rerankChunks`: either the similarity-sorted scored list
(success) or the input chunks unchanged (`catch` branch, worker.js
lines 132–135). -/
inductive RerankResult
  | reranked (scored : List ScoredChunk)
  | fallback (chunks : List Chunk)

/-- The chunk list a `RerankResult` carries (the similarity annotation
dropped); this is what `handleAsk` slices and maps over. -/
def RerankResult.chunks : RerankResult → List Chunk
  | .reranked scored => scored.map (·.chunk)
  | .fallback cs => cs

/-- worker.js lines 109–136.  Texts are `[question, ...chunks.map(c=>c.text)]`;
on success chunk `i` is paired with returned vector `i+1` and the scored list
is sorted descending by similarity.  Any failure inside the `try` — a batch
call throwing (`batchedEmbed = none`) or too few embeddings coming back
(indexing `undefined` throws inside `cosineSimilarity`) — falls back to the
input chunks unchanged. -/
noncomputable def rerankChunks (ai : EmbedFn) (question : String)
    (chunks : List Chunk) : RerankResult :=
  match batchedEmbed ai (question :: chunks.map (·.text)) with
  | none => .fallback chunks
  | some allEmbeddings =>
    if chunks.length + 1 ≤ allEmbeddings.length then
      let queryEmbedding := allEmbeddings.headI
      .reranked (sortBySimilarity
        ((chunks.zip allEmbeddings.tail).map
          (fun p => ⟨p.1, cosineSimilarity queryEmbedding p.2⟩)))
    else .fallback chunks

/- ─── Request/response model for the `/` route ─── -/

/-- The parsed request body `{ question, chunks }`; `none` models an absent
field or one of the wrong runtime type (non-string question, non-array
chunks). -/
structure AskBody where
  question : Option String
  chunks : Option (List RawChunk)

/-- Result of the `fetch` to the text-generation collaborator:
`.httpError` = non-ok status (worker.js line 258), `.ok none` = ok status but
no `content[0].text` (line 265), `.ok (some s)` = usable answer. -/
inductive ClaudeResult
  | ok (content : Option String)
  | httpError
deriving DecidableEq

/-- The environment bindings the worker reads: `env.AI` (embedding
capability, absent in some deployments) and `env.ANTHROPIC_API_KEY`. -/
structure Env where
  AI : Option EmbedFn
  ANTHROPIC_API_KEY : Option String

/-- The JSON response of `handleAsk`: an error with HTTP status, or a 200
answer carrying `rerankedIds`. -/
inductive AskResponse
  | error (status : Nat) (message : String)
  | answer (text : String) (rerankedIds : List String)

/-- worker.js lines 230–241: render each best chunk as
`[id] (sectionTitle)\n text`, join with the separator, and wrap with the
question (re-truncated at line 234 — a no-op, since only questions within
`MAX_QUESTION_LENGTH` reach this point). -/
def buildUserMessage (question : String) (bestChunks : List Chunk) : String :=
  let chunksText := String.intercalate "\n\n---\n\n"
    (bestChunks.map (fun c => "[" ++ c.id ++ "] (" ++ c.sectionTitle ++ ")\n" ++ c.text))
  let sanitizedQuestion := sliceTo question MAX_QUESTION_LENGTH
  "A resident asks: \"" ++ sanitizedQuestion ++ "\"\n\n" ++
    "Here are the relevant OCP policy excerpts to base your answer on:\n\n" ++
    chunksText ++
    "\n\nPlease provide a clear, helpful answer to the resident's question based on these policy excerpts."

/-- worker.js lines 180–280 (`handleAsk`), with the checks in source order:
question present/string, chunks present/non-empty array, question length,
chunk count, sanitize-and-filter, API key, rerank (guarded by `env.AI`),
top-N slice, Claude call, response-shape check. -/
noncomputable def handleAsk (env : Env) (claude : String → ClaudeResult)
    (body : AskBody) : AskResponse :=
  match body.question with
  | none => .error 400 "Missing or invalid question"
  | some question =>
    if question = "" then .error 400 "Missing or invalid question"
    else
      match body.chunks with
      | none => .error 400 "Missing or empty chunks array"
      | some chunks =>
        if chunks = [] then .error 400 "Missing or empty chunks array"
        else if MAX_QUESTION_LENGTH < question.length then
          .error 400 "Question too long. Maximum is 1000 characters."
        else if MAX_CHUNKS_ACCEPTED < chunks.length then
          .error 400 "Too many chunks. Maximum is 100."
        else
          let sanitizedChunks := sanitizeChunks chunks
          if sanitizedChunks = [] then .error 400 "No valid chunks provided"
          else
            match env.ANTHROPIC_API_KEY with
            | none => .error 500 "API key not configured"
            | some _ =>
              let bestChunks :=
                match env.AI with
                | some ai =>
                  (rerankChunks ai question sanitizedChunks).chunks.take RERANK_TOP_N
                | none => sanitizedChunks.take RERANK_TOP_N
              match claude (buildUserMessage question bestChunks) with
              | .httpError => .error 502 "AI service temporarily unavailable"
              | .ok none => .error 502 "AI service returned an unexpected response"
              | .ok (some answer) => .answer answer (bestChunks.map (·.id))

/- ─── `/embed` route (worker.js lines 139–177) ─── -/

/-- The JSON response of `handleEmbed`. -/
inductive EmbedResponse
  | error (status : Nat) (message : String)
  | ok (embeddings : List Vec)

/-- worker.js lines 139–177 (`handleEmbed`): validate the `texts` array,
replace non-strings by "" and truncate each text, drop empties, then run the
batching loop; a missing `env.AI` or a failing batch is the `catch` branch
(500).  A list element `none` models a non-string array element. -/
def handleEmbed (env : Env) (texts : Option (List (Option String))) :
    EmbedResponse :=
  match texts with
  | none => .error 400 "Missing 'texts' array"
  | some ts =>
    if ts = [] then .error 400 "Missing 'texts' array"
    else if MAX_EMBED_TEXTS < ts.length then
      .error 400 "Too many texts. Maximum is 200."
    else
      let sanitized := (ts.map (fun t => sliceTo (t.getD "") MAX_EMBED_TEXT_LENGTH)).filter
        (fun t => t.length ≠ 0)
      if sanitized = [] then .error 400 "No valid text strings provided"
      else
        match env.AI with
        | none => .error 500 "Embedding failed"
        | some ai =>
          match batchedEmbed ai sanitized with
          | none => .error 500 "Embedding failed"
          | some allEmbeddings => .ok allEmbeddings


/- ─── Helper lemmas: dot product and cosine similarity ─── -/

@[simp] lemma dotProd_nil_left (b : Vec) : dotProd [] b = 0 := by cases b <;> rfl

@[simp] lemma dotProd_nil_right (a : Vec) : dotProd a [] = 0 := by cases a <;> rfl

@[simp] lemma dotProd_cons (x y : ℝ) (as bs : Vec) :
    dotProd (x :: as) (y :: bs) = x * y + dotProd as bs := rfl

lemma dotProd_self_nonneg (a : Vec) : 0 ≤ dotProd a a := by
  induction a with
  | nil => simp
  | cons x as ih => simp only [dotProd_cons]; nlinarith [mul_self_nonneg x]

/-- Cauchy–Schwarz for the pairwise product-sum. -/
lemma dotProd_sq_le (a : Vec) : ∀ b : Vec, (dotProd a b) ^ 2 ≤ dotProd a a * dotProd b b := by
  induction a with
  | nil => intro b; simp
  | cons x as ih =>
    intro b
    cases b with
    | nil =>
      simp only [dotProd_nil_right]
      nlinarith [dotProd_self_nonneg (x :: as)]
    | cons y bs =>
      have hA := dotProd_self_nonneg as
      have hB := dotProd_self_nonneg bs
      have hd := ih bs
      simp only [dotProd_cons]
      rcases eq_or_lt_of_le hB with hB0 | hBpos
      · have hd0 : dotProd as bs = 0 := by nlinarith [sq_nonneg (dotProd as bs)]
        rw [hd0, ← hB0]
        nlinarith [mul_nonneg hA (mul_self_nonneg y)]
      · nlinarith [sq_nonneg (dotProd bs bs * x - dotProd as bs * y),
          mul_nonneg (add_nonneg (mul_self_nonneg y) hB)
            (sub_nonneg.mpr hd), hBpos]

lemma abs_dotProd_le (a b : Vec) :
    |dotProd a b| ≤ Real.sqrt (dotProd a a) * Real.sqrt (dotProd b b) := by
  have h := dotProd_sq_le a b
  calc |dotProd a b| = Real.sqrt ((dotProd a b) ^ 2) := (Real.sqrt_sq_eq_abs _).symm
    _ ≤ Real.sqrt (dotProd a a * dotProd b b) := Real.sqrt_le_sqrt h
    _ = Real.sqrt (dotProd a a) * Real.sqrt (dotProd b b) :=
        Real.sqrt_mul (dotProd_self_nonneg a) _

lemma cosineDenom_pos (a b : Vec) :
    0 < Real.sqrt (dotProd a a) * Real.sqrt (dotProd b b) + 1e-8 := by
  have h1 := Real.sqrt_nonneg (dotProd a a)
  have h2 := Real.sqrt_nonneg (dotProd b b)
  have h3 : (0:ℝ) < 1e-8 := by norm_num
  nlinarith [mul_nonneg h1 h2]

lemma abs_cosineSimilarity_le_one (a b : Vec) : |cosineSimilarity a b| ≤ 1 := by
  have hD := cosineDenom_pos a b
  rw [cosineSimilarity, abs_div, abs_of_pos hD, div_le_one hD]
  have := abs_dotProd_le a b
  have h3 : (0:ℝ) < 1e-8 := by norm_num
  linarith

lemma dotProd_zero_left (a b : Vec) (ha : ∀ x ∈ a, x = 0) : dotProd a b = 0 := by
  induction a generalizing b with
  | nil => simp
  | cons x as ih =>
    cases b with
    | nil => simp
    | cons y bs =>
      have hx : x = 0 := ha x (by simp)
      have := ih bs (fun z hz => ha z (List.mem_cons_of_mem _ hz))
      simp [hx, this]

lemma dotProd_zero_right (a b : Vec) (hb : ∀ x ∈ b, x = 0) : dotProd a b = 0 := by
  induction a generalizing b with
  | nil => simp
  | cons x as ih =>
    cases b with
    | nil => simp
    | cons y bs =>
      have hy : y = 0 := hb y (by simp)
      have := ih bs (fun z hz => hb z (List.mem_cons_of_mem _ hz))
      simp [hy, this]

/- ─── Helper lemmas: the batching loop ─── -/

/-- A collaborator that embeds each text of a (small enough) batch
pointwise by `f` makes the whole loop return exactly `texts.map f`. -/
lemma batchedEmbed_of_pointwise (f : String → Vec) (ai : EmbedFn)
    (hai : ∀ ts, ts.length ≤ EMBEDDING_BATCH_SIZE → ai ts = some (ts.map f)) :
    ∀ texts, batchedEmbed ai texts = some (texts.map f) := by
  intro texts
  induction texts using batchedEmbed.induct ai with
  | case1 => rw [batchedEmbed]; simp
  | case2 x hx hnone =>
    have hb := hai (x.take EMBEDDING_BATCH_SIZE) (List.length_take_le _ _)
    rw [hb] at hnone
    exact absurd hnone (by simp)
  | case3 x hx rest hsome hrecnone ih =>
    rw [ih] at hrecnone
    exact absurd hrecnone (by simp)
  | case4 x hx rest hsome rest2 hrec ih =>
    have hb := hai (x.take EMBEDDING_BATCH_SIZE) (List.length_take_le _ _)
    rw [batchedEmbed]
    simp only [hx, dite_false, dif_neg, hb, ih]
    rw [← List.map_append, List.take_append_drop]

/-- A length-preserving collaborator makes the loop length-preserving. -/
lemma batchedEmbed_length (ai : EmbedFn)
    (hai : ∀ ts vs, ai ts = some vs → vs.length = ts.length) :
    ∀ texts vs, batchedEmbed ai texts = some vs → vs.length = texts.length := by
  intro texts
  induction texts using batchedEmbed.induct ai with
  | case1 => intro vs h; rw [batchedEmbed] at h; simp at h; simp [← h]
  | case2 x hx hnone =>
    intro vs h; rw [batchedEmbed] at h
    simp [hnone] at h
    exact absurd h.1 hx
  | case3 x hx rest hsome hrecnone ih =>
    intro vs h; rw [batchedEmbed] at h
    simp [hsome, hrecnone] at h
    exact absurd h.1 hx
  | case4 x hx rest hsome rest2 hrec ih =>
    intro vs h; rw [batchedEmbed] at h
    simp [hx, hsome, hrec] at h
    subst h
    have h1 := hai _ _ hsome
    have h2 := ih _ hrec
    simp only [List.length_append, h1, h2, List.length_take, List.length_drop]
    have : EMBEDDING_BATCH_SIZE = 100 := rfl
    omega

/- ─── Helper lemmas: the similarity sort ─── -/

lemma sortBySimilarity_perm (l : List ScoredChunk) : (sortBySimilarity l).Perm l :=
  List.mergeSort_perm l _

/-- The sorted output is non-increasing in similarity. -/
lemma sortBySimilarity_sorted (l : List ScoredChunk) :
    List.Pairwise (fun x y : ScoredChunk => y.similarity ≤ x.similarity)
      (sortBySimilarity l) := by
  have h := @List.sorted_mergeSort ScoredChunk
    (fun x y : ScoredChunk => decide (y.similarity ≤ x.similarity))
    (fun a b c hab hbc =>
      decide_eq_true (le_trans (of_decide_eq_true hbc) (of_decide_eq_true hab)))
    (fun a b => by rcases le_total b.similarity a.similarity with h | h <;> simp [h]) l
  exact h.imp (fun hab => of_decide_eq_true hab)


/- ─── Helper lemmas: rerankChunks ─── -/

/-- Characterization of the two fallback situations of `rerankChunks`. -/
lemma rerankChunks_fallback (ai : EmbedFn) (q : String) (cs : List Chunk)
    (hfail : ∀ embs, batchedEmbed ai (q :: cs.map (·.text)) = some embs →
      embs.length < cs.length + 1) :
    rerankChunks ai q cs = .fallback cs := by
  rw [rerankChunks]
  cases hembs : batchedEmbed ai (q :: cs.map (·.text)) with
  | none => rfl
  | some embs =>
    have hlt := hfail embs hembs
    simp only [not_le.mpr hlt, if_false]

/-- Characterization of the success branch of `rerankChunks`. -/
lemma rerankChunks_success (ai : EmbedFn) (q : String) (cs : List Chunk)
    (embs : List Vec)
    (hembs : batchedEmbed ai (q :: cs.map (·.text)) = some embs)
    (hlen : cs.length + 1 ≤ embs.length) :
    rerankChunks ai q cs = .reranked (sortBySimilarity
      ((cs.zip embs.tail).map
        (fun p => ⟨p.1, cosineSimilarity embs.headI p.2⟩))) := by
  rw [rerankChunks, hembs]
  simp only [hlen, if_true]

/-- The reranking step never changes how many chunks there are. -/
lemma rerankChunks_chunks_length (ai : EmbedFn) (q : String) (cs : List Chunk) :
    ((rerankChunks ai q cs).chunks).length = cs.length := by
  rw [rerankChunks]
  cases hembs : batchedEmbed ai (q :: cs.map (·.text)) with
  | none => rfl
  | some embs =>
    by_cases hlen : cs.length + 1 ≤ embs.length
    · simp only [hlen, if_true, RerankResult.chunks]
      rw [List.length_map, (sortBySimilarity_perm _).length_eq,
        List.length_map, List.length_zip, List.length_tail]
      omega
    · simp only [hlen, if_false, RerankResult.chunks]

/- ─── C3 ─── -/

/-- C3: for every list of input texts, the batched embedding operation
returns one vector per input text, in input order (here: a collaborator
that embeds each text of a batch pointwise by `f` — and is only required to
answer on batches of at most `EMBEDDING_BATCH_SIZE` texts, so the loop can
never issue a larger call — yields exactly `texts.map f`); consequently the
output is parallel in length to the input. -/
theorem embed_parallel_to_input (f : String → Vec) (ai : EmbedFn)
    (hai : ∀ ts, ts.length ≤ EMBEDDING_BATCH_SIZE → ai ts = some (ts.map f)) :
    (∀ texts, batchedEmbed ai texts = some (texts.map f)) ∧
    (∀ texts vs, batchedEmbed ai texts = some vs → vs.length = texts.length) := by
  have h1 := batchedEmbed_of_pointwise f ai hai
  refine ⟨h1, fun texts vs hv => ?_⟩
  rw [h1 texts] at hv
  cases hv
  simp

/-- Witness for C3 at a concrete collaborator and a concrete text list. -/
theorem embed_parallel_to_input_witness :
    (∀ ts : List String, ts.length ≤ EMBEDDING_BATCH_SIZE →
      (fun ts : List String => some (ts.map (fun _ => ([] : Vec)))) ts =
        some (ts.map (fun _ => ([] : Vec)))) ∧
    batchedEmbed (fun ts : List String => some (ts.map (fun _ => ([] : Vec))))
      ["a", "b"] = some [[], []] := by
  have h := embed_parallel_to_input (fun _ => ([] : Vec))
    (fun ts : List String => some (ts.map (fun _ => ([] : Vec))))
    (fun ts _ => rfl)
  exact ⟨fun ts _ => rfl, by simpa using h.1 ["a", "b"]⟩

/- ─── C4 ─── -/

/-- C4: for equal-length vectors the reranker's similarity is the dot
product divided by (the product of the magnitudes plus the epsilon 1e-8);
the denominator is strictly positive (so the value is well-defined, and an
all-zero vector yields 0), and the value lies in [-1, 1]. -/
theorem cosineSimilarity_wellDefined (a b : Vec) (hlen : a.length = b.length) :
    cosineSimilarity a b =
      dotProd a b / (Real.sqrt (dotProd a a) * Real.sqrt (dotProd b b) + 1e-8) ∧
    0 < Real.sqrt (dotProd a a) * Real.sqrt (dotProd b b) + 1e-8 ∧
    -1 ≤ cosineSimilarity a b ∧ cosineSimilarity a b ≤ 1 ∧
    (((∀ x ∈ a, x = 0) ∨ (∀ x ∈ b, x = 0)) → cosineSimilarity a b = 0) := by
  have habs := abs_le.mp (abs_cosineSimilarity_le_one a b)
  refine ⟨rfl, cosineDenom_pos a b, habs.1, habs.2, ?_⟩
  rintro (ha | hb)
  · rw [cosineSimilarity, dotProd_zero_left a b ha, zero_div]
  · rw [cosineSimilarity, dotProd_zero_right a b hb, zero_div]

/-- Witness for C4 at the concrete pair [1, 0] and [0, 1]. -/
theorem cosineSimilarity_wellDefined_witness :
    ([1, 0] : Vec).length = ([0, 1] : Vec).length ∧
    (-1 ≤ cosineSimilarity [1, 0] [0, 1] ∧ cosineSimilarity [1, 0] [0, 1] ≤ 1) := by
  have h := cosineSimilarity_wellDefined [1, 0] [0, 1] rfl
  exact ⟨rfl, h.2.2.1, h.2.2.2.1⟩


/- ─── Helper lemma: handleAsk on inputs that pass validation ─── -/

/-- On a request that passes every boundary check and with the API key
configured, `handleAsk` reduces to: pick the best chunks (reranked when
`env.AI` is configured, lexical order otherwise), truncate to
`RERANK_TOP_N`, call the text-generation collaborator, and wrap its
outcome. -/
lemma handleAsk_valid (env : Env) (claude : String → ClaudeResult)
    (q : String) (chunks : List RawChunk) (key : String)
    (hq : q ≠ "") (hql : q.length ≤ MAX_QUESTION_LENGTH)
    (hne : chunks ≠ []) (hcount : chunks.length ≤ MAX_CHUNKS_ACCEPTED)
    (hsan : sanitizeChunks chunks ≠ [])
    (hkey : env.ANTHROPIC_API_KEY = some key) :
    handleAsk env claude ⟨some q, some chunks⟩ =
      (let bestChunks := match env.AI with
        | some ai =>
          (rerankChunks ai q (sanitizeChunks chunks)).chunks.take RERANK_TOP_N
        | none => (sanitizeChunks chunks).take RERANK_TOP_N
      match claude (buildUserMessage q bestChunks) with
      | .httpError => .error 502 "AI service temporarily unavailable"
      | .ok none => .error 502 "AI service returned an unexpected response"
      | .ok (some answer) => .answer answer (bestChunks.map (·.id))) := by
  rw [handleAsk]
  simp only [if_neg hq, if_neg hne, if_neg (not_lt.mpr hql),
    if_neg (not_lt.mpr hcount), if_neg hsan, hkey]


/- ─── C5 ─── -/

/-- C5: when embedding succeeds, the reranker has embedded the query first
and then each candidate text in candidate order in one batched request
(the text list of the hypothesis), the returned vectors are parallel to it
(query = vector 0, candidate i = vector i+1, expressed by zipping the
candidates with the tail of the embeddings), and the result is the scored
list sorted in non-increasing order of similarity (a permutation of the
pairing, pairwise non-increasing). -/
theorem rerank_success_sorted (ai : EmbedFn) (question : String)
    (chunks : List Chunk) (embs : List Vec)
    (hwb : ∀ ts vs, ai ts = some vs → vs.length = ts.length)
    (hsucc : batchedEmbed ai (question :: chunks.map (·.text)) = some embs) :
    embs.length = chunks.length + 1 ∧
    rerankChunks ai question chunks = .reranked (sortBySimilarity
      ((chunks.zip embs.tail).map
        (fun p => ⟨p.1, cosineSimilarity embs.headI p.2⟩))) ∧
    (sortBySimilarity ((chunks.zip embs.tail).map
      (fun p => ⟨p.1, cosineSimilarity embs.headI p.2⟩))).Perm
      ((chunks.zip embs.tail).map
        (fun p => ⟨p.1, cosineSimilarity embs.headI p.2⟩)) ∧
    List.Pairwise (fun x y : ScoredChunk => y.similarity ≤ x.similarity)
      (sortBySimilarity ((chunks.zip embs.tail).map
        (fun p => ⟨p.1, cosineSimilarity embs.headI p.2⟩))) := by
  have hlen : embs.length = chunks.length + 1 := by
    have := batchedEmbed_length ai hwb _ _ hsucc
    simpa using this
  exact ⟨hlen,
    rerankChunks_success ai question chunks embs hsucc (le_of_eq hlen.symm),
    sortBySimilarity_perm _, sortBySimilarity_sorted _⟩

/-- Witness for C5: a collaborator embedding every text as [1], one
candidate chunk. -/
theorem rerank_success_sorted_witness :
    batchedEmbed (fun ts : List String => some (ts.map (fun _ => ([1] : Vec))))
      ("q" :: ([(⟨"a", "b", "c"⟩ : Chunk)].map (·.text))) = some [[1], [1]] ∧
    List.Pairwise (fun x y : ScoredChunk => y.similarity ≤ x.similarity)
      (sortBySimilarity ((([(⟨"a", "b", "c"⟩ : Chunk)]).zip
          (([[1], [1]] : List Vec)).tail).map
        (fun p => ⟨p.1, cosineSimilarity ([[1], [1]] : List Vec).headI p.2⟩))) := by
  have hwb : ∀ ts vs,
      (fun ts : List String => some (ts.map (fun _ => ([1] : Vec)))) ts = some vs →
        vs.length = ts.length := by
    intro ts vs h
    simp only [Option.some.injEq] at h
    simp [← h]
  have hsucc : batchedEmbed
      (fun ts : List String => some (ts.map (fun _ => ([1] : Vec))))
      ("q" :: ([(⟨"a", "b", "c"⟩ : Chunk)].map (·.text))) = some [[1], [1]] := by
    simpa using batchedEmbed_of_pointwise (fun _ => ([1] : Vec)) _
      (fun ts _ => rfl) ["q", "c"]
  have h := rerank_success_sorted _ "q" [⟨"a", "b", "c"⟩] [[1], [1]] hwb hsucc
  exact ⟨hsucc, h.2.2.2⟩

/- ─── C10 ─── -/

/-- C10: the reranking step never loses, duplicates or alters a candidate:
a fallback result is the input list itself, and a success result carries a
permutation of the input chunks (each with id, sectionTitle and text
unchanged inside the `chunk` field, augmented only with a similarity). -/
theorem rerank_preserves_candidates (ai : EmbedFn) (question : String)
    (chunks : List Chunk) :
    (∀ cs, rerankChunks ai question chunks = .fallback cs → cs = chunks) ∧
    (∀ scored, rerankChunks ai question chunks = .reranked scored →
      (scored.map (·.chunk)).Perm chunks) := by
  constructor
  · intro cs h
    rw [rerankChunks] at h
    cases hembs : batchedEmbed ai (question :: chunks.map (·.text)) with
    | none =>
      rw [hembs] at h
      cases h
      rfl
    | some embs =>
      rw [hembs] at h
      by_cases hlen : chunks.length + 1 ≤ embs.length
      · simp only [hlen, if_true] at h
        exact RerankResult.noConfusion h
      · simp only [hlen, if_false] at h
        cases h
        rfl
  · intro scored h
    rw [rerankChunks] at h
    cases hembs : batchedEmbed ai (question :: chunks.map (·.text)) with
    | none =>
      rw [hembs] at h
      exact RerankResult.noConfusion h
    | some embs =>
      rw [hembs] at h
      by_cases hlen : chunks.length + 1 ≤ embs.length
      · simp only [hlen, if_true, RerankResult.reranked.injEq] at h
        subst h
        have hp := (sortBySimilarity_perm ((chunks.zip embs.tail).map
          (fun p => ⟨p.1, cosineSimilarity embs.headI p.2⟩))).map (·.chunk)
        rw [List.map_map] at hp
        have hfst : ((chunks.zip embs.tail).map
            ((fun c : ScoredChunk => c.chunk) ∘
              (fun p : Chunk × Vec => ⟨p.1, cosineSimilarity embs.headI p.2⟩))) =
            (chunks.zip embs.tail).map Prod.fst := by
          simp
        rw [hfst, List.map_fst_zip chunks embs.tail
          (by rw [List.length_tail]; omega)] at hp
        exact hp
      · simp only [hlen, if_false] at h
        exact RerankResult.noConfusion h

/-- Witness for C10: success path with a pointwise collaborator, showing
dropping the similarity annotation recovers exactly the input chunk. -/
theorem rerank_preserves_candidates_witness :
    rerankChunks (fun ts : List String => some (ts.map (fun _ => ([1] : Vec))))
      "q" [⟨"a", "b", "c"⟩] = .reranked (sortBySimilarity
        ((([(⟨"a", "b", "c"⟩ : Chunk)]).zip (([[1], [1]] : List Vec)).tail).map
          (fun p => ⟨p.1, cosineSimilarity ([[1], [1]] : List Vec).headI p.2⟩))) ∧
    ((sortBySimilarity ((([(⟨"a", "b", "c"⟩ : Chunk)]).zip
        (([[1], [1]] : List Vec)).tail).map
      (fun p => ⟨p.1, cosineSimilarity ([[1], [1]] : List Vec).headI p.2⟩))).map
        (·.chunk)).Perm [⟨"a", "b", "c"⟩] := by
  have hsucc : batchedEmbed
      (fun ts : List String => some (ts.map (fun _ => ([1] : Vec))))
      ("q" :: ([(⟨"a", "b", "c"⟩ : Chunk)].map (·.text))) = some [[1], [1]] := by
    simpa using batchedEmbed_of_pointwise (fun _ => ([1] : Vec)) _
      (fun ts _ => rfl) ["q", "c"]
  have heq := rerankChunks_success _ "q" [⟨"a", "b", "c"⟩] [[1], [1]] hsucc
    (by simp)
  exact ⟨heq, (rerank_preserves_candidates _ "q" [⟨"a", "b", "c"⟩]).2 _ heq⟩

/- ─── C1 ─── -/

/-- C1: if every batched embedding outcome fails (no well-formed embedding
list comes back), the reranker returns the candidates unchanged in input
order, and — whether `env.AI` is that failing collaborator or is not
configured at all — a request that passes validation still produces an
answer, whose rerankedIds are the first `RERANK_TOP_N` candidates in input
order. -/
theorem rerank_failure_falls_back (ai : EmbedFn) (question : String)
    (chunks : List Chunk)
    (hfail : ∀ embs, batchedEmbed ai (question :: chunks.map (·.text)) = some embs →
      embs.length < chunks.length + 1) :
    rerankChunks ai question chunks = .fallback chunks ∧
    (∀ (env : Env) (claude : String → ClaudeResult) (rawChunks : List RawChunk)
      (answer key : String),
      (env.AI = some ai ∨ env.AI = none) →
      env.ANTHROPIC_API_KEY = some key →
      sanitizeChunks rawChunks = chunks →
      question ≠ "" → question.length ≤ MAX_QUESTION_LENGTH →
      rawChunks ≠ [] → rawChunks.length ≤ MAX_CHUNKS_ACCEPTED →
      chunks ≠ [] →
      (∀ msg, claude msg = .ok (some answer)) →
      handleAsk env claude ⟨some question, some rawChunks⟩ =
        .answer answer ((chunks.take RERANK_TOP_N).map (·.id))) := by
  have hfb := rerankChunks_fallback ai question chunks hfail
  refine ⟨hfb, ?_⟩
  intro env claude rawChunks answer key hAI hkey hsan hq hql hne hcount hcne hcl
  rw [handleAsk_valid env claude question rawChunks key hq hql hne hcount
    (by rw [hsan]; exact hcne) hkey]
  rcases hAI with hAI | hAI
  · simp only [hAI, hsan, hfb, RerankResult.chunks, hcl]
  · simp only [hAI, hsan, hcl]

/-- Witness for C1: an always-failing collaborator; the request is answered
with the single candidate in input order. -/
theorem rerank_failure_falls_back_witness :
    rerankChunks (fun _ => none) "q" [⟨"id1", "", "t1"⟩] =
      .fallback [⟨"id1", "", "t1"⟩] ∧
    handleAsk ⟨some (fun _ => none), some "k"⟩ (fun _ => .ok (some "ans"))
      ⟨some "q", some [⟨some "id1", none, some "t1"⟩]⟩ =
      .answer "ans" ["id1"] := by
  have hfail : ∀ embs, batchedEmbed (fun _ => none)
      ("q" :: ([(⟨"id1", "", "t1"⟩ : Chunk)].map (·.text))) = some embs →
      embs.length < 2 := by
    intro embs h
    rw [batchedEmbed] at h
    simp at h
  have h := rerank_failure_falls_back (fun _ => none) "q" [⟨"id1", "", "t1"⟩] hfail
  refine ⟨h.1, ?_⟩
  have h2 := h.2 ⟨some (fun _ => none), some "k"⟩ (fun _ => .ok (some "ans"))
    [⟨some "id1", none, some "t1"⟩] "ans" "k" (Or.inl rfl) rfl (by decide)
    (by decide) (by decide) (by decide) (by decide) (by decide) (fun _ => rfl)
  rw [List.take_of_length_le (by decide)] at h2
  simpa using h2


/- ─── C6 ─── -/

/-- C6: for every valid request — whichever of the two paths (semantic or
fallback) produced the ordering — the rerankedIds handed back (and the
chunks handed to the text-generation collaborator) number at most
`RERANK_TOP_N`, and equal the number of surviving candidates when that is
below `RERANK_TOP_N`. -/
theorem topN_bound (env : Env) (claude : String → ClaudeResult)
    (question : String) (chunks : List RawChunk) (answer key : String)
    (hq : question ≠ "") (hql : question.length ≤ MAX_QUESTION_LENGTH)
    (hne : chunks ≠ []) (hcount : chunks.length ≤ MAX_CHUNKS_ACCEPTED)
    (hsan : sanitizeChunks chunks ≠ [])
    (hkey : env.ANTHROPIC_API_KEY = some key)
    (hcl : ∀ msg, claude msg = .ok (some answer)) :
    ∃ ids, handleAsk env claude ⟨some question, some chunks⟩ =
        .answer answer ids ∧
      ids.length = min RERANK_TOP_N (sanitizeChunks chunks).length ∧
      ids.length ≤ RERANK_TOP_N ∧
      ((sanitizeChunks chunks).length ≤ RERANK_TOP_N →
        ids.length = (sanitizeChunks chunks).length) := by
  rw [handleAsk_valid env claude question chunks key hq hql hne hcount hsan hkey]
  cases hAI : env.AI with
  | none =>
    simp only [hcl]
    refine ⟨_, rfl, ?_, ?_, ?_⟩
    · rw [List.length_map, List.length_take]
    · rw [List.length_map, List.length_take]
      exact Nat.min_le_left _ _
    · intro hle
      rw [List.length_map, List.length_take]
      exact Nat.min_eq_right hle
  | some ai =>
    simp only [hcl]
    refine ⟨_, rfl, ?_, ?_, ?_⟩
    · rw [List.length_map, List.length_take, rerankChunks_chunks_length]
    · rw [List.length_map, List.length_take]
      exact Nat.min_le_left _ _
    · intro hle
      rw [List.length_map, List.length_take, rerankChunks_chunks_length]
      exact Nat.min_eq_right hle

/-- Witness for C6: one candidate, no AI binding; one id comes back. -/
theorem topN_bound_witness :
    ∃ ids, handleAsk ⟨none, some "k"⟩ (fun _ => .ok (some "ans"))
        ⟨some "q", some [⟨some "id1", none, some "t1"⟩]⟩ =
        .answer "ans" ids ∧
      ids.length = min RERANK_TOP_N
        (sanitizeChunks [⟨some "id1", none, some "t1"⟩]).length ∧
      ids.length ≤ RERANK_TOP_N ∧
      ((sanitizeChunks [⟨some "id1", none, some "t1"⟩]).length ≤ RERANK_TOP_N →
        ids.length = (sanitizeChunks [⟨some "id1", none, some "t1"⟩]).length) :=
  topN_bound ⟨none, some "k"⟩ (fun _ => .ok (some "ans")) "q"
    [⟨some "id1", none, some "t1"⟩] "ans" "k" (by decide) (by decide)
    (by decide) (by decide) (by decide) rfl (fun _ => rfl)

/- ─── C7 ─── -/

/-- C7: a request whose candidate array exceeds `MAX_CHUNKS_ACCEPTED` is
rejected with the "Too many chunks" validation error (status 400); it is
not silently truncated. -/
theorem too_many_chunks_rejected (env : Env) (claude : String → ClaudeResult)
    (question : String) (chunks : List RawChunk)
    (hq : question ≠ "") (hql : question.length ≤ MAX_QUESTION_LENGTH)
    (hmany : MAX_CHUNKS_ACCEPTED < chunks.length) :
    handleAsk env claude ⟨some question, some chunks⟩ =
      .error 400 "Too many chunks. Maximum is 100." := by
  have hne : chunks ≠ [] := by
    intro h0
    rw [h0] at hmany
    simp [MAX_CHUNKS_ACCEPTED] at hmany
  rw [handleAsk]
  simp only [if_neg hq, if_neg hne, if_neg (not_lt.mpr hql), if_pos hmany]

/-- Witness for C7: 101 candidates are rejected. -/
theorem too_many_chunks_rejected_witness :
    handleAsk ⟨none, none⟩ (fun _ => .httpError)
      ⟨some "q", some (List.replicate 101 ⟨some "i", none, some "t"⟩)⟩ =
      .error 400 "Too many chunks. Maximum is 100." :=
  too_many_chunks_rejected ⟨none, none⟩ (fun _ => .httpError) "q"
    (List.replicate 101 ⟨some "i", none, some "t"⟩) (by decide) (by decide)
    (by rw [List.length_replicate]; norm_num [MAX_CHUNKS_ACCEPTED])

/- ─── C8 ─── -/

/-- C8: candidates missing a string id or string text are dropped while the
remaining candidates are processed exactly as if only they had been sent;
the request fails (with the "No valid chunks provided" validation error)
only when no valid candidate remains. -/
theorem invalid_chunks_dropped (env : Env) (claude : String → ClaudeResult)
    (question : String) (chunks : List RawChunk)
    (hq : question ≠ "") (hql : question.length ≤ MAX_QUESTION_LENGTH)
    (hne : chunks ≠ []) (hcount : chunks.length ≤ MAX_CHUNKS_ACCEPTED) :
    (sanitizeChunks chunks = [] →
      handleAsk env claude ⟨some question, some chunks⟩ =
        .error 400 "No valid chunks provided") ∧
    (sanitizeChunks chunks ≠ [] →
      handleAsk env claude ⟨some question, some chunks⟩ =
        handleAsk env claude ⟨some question, some (chunks.filter isValidChunk)⟩) := by
  constructor
  · intro hsan
    rw [handleAsk]
    simp only [if_neg hq, if_neg hne, if_neg (not_lt.mpr hql),
      if_neg (not_lt.mpr hcount), hsan, if_true]
  · intro hsan
    have hfeq : sanitizeChunks (chunks.filter isValidChunk) =
        sanitizeChunks chunks := by
      rw [sanitizeChunks, sanitizeChunks, List.filter_filter]
      congr 1
      apply List.filter_congr
      intro a _
      exact Bool.and_self _
    have hfne : chunks.filter isValidChunk ≠ [] := by
      intro h0
      apply hsan
      rw [sanitizeChunks, h0]
      rfl
    have hfcount : (chunks.filter isValidChunk).length ≤ MAX_CHUNKS_ACCEPTED :=
      le_trans (List.length_filter_le _ _) hcount
    rw [handleAsk, handleAsk]
    simp only [if_neg hq, if_neg hne, if_neg hfne, if_neg (not_lt.mpr hql),
      if_neg (not_lt.mpr hcount), if_neg (not_lt.mpr hfcount), hfeq]

/-- Witness for C8: a lone invalid candidate is a validation error; an
invalid candidate alongside a valid one is dropped, the request behaving as
if only the valid one had been sent. -/
theorem invalid_chunks_dropped_witness :
    handleAsk ⟨none, some "k"⟩ (fun _ => .ok (some "ans"))
      ⟨some "q", some [⟨none, some "s", some "t2"⟩]⟩ =
      .error 400 "No valid chunks provided" ∧
    handleAsk ⟨none, some "k"⟩ (fun _ => .ok (some "ans"))
      ⟨some "q", some [⟨none, some "s", some "t2"⟩, ⟨some "id1", none, some "t1"⟩]⟩ =
      handleAsk ⟨none, some "k"⟩ (fun _ => .ok (some "ans"))
        ⟨some "q", some ([⟨none, some "s", some "t2"⟩,
          ⟨some "id1", none, some "t1"⟩].filter isValidChunk)⟩ := by
  constructor
  · exact (invalid_chunks_dropped ⟨none, some "k"⟩ (fun _ => .ok (some "ans"))
      "q" [⟨none, some "s", some "t2"⟩] (by decide) (by decide) (by decide)
      (by decide)).1 (by decide)
  · exact (invalid_chunks_dropped ⟨none, some "k"⟩ (fun _ => .ok (some "ans"))
      "q" [⟨none, some "s", some "t2"⟩, ⟨some "id1", none, some "t1"⟩]
      (by decide) (by decide) (by decide) (by decide)).2 (by decide)


/- ─── C9 ─── -/

/-- C9: every boundary validation failure (missing/invalid question,
missing/empty/oversized candidate array, no valid candidate after
filtering) yields a 400 validation error, while a failure of the
text-generation collaborator on an otherwise valid request yields a 502
service-unavailable error — two distinct statuses, and the collaborator
failure is never recovered locally. -/
theorem error_status_separation :
    (∀ (env : Env) (claude : String → ClaudeResult) (body : AskBody),
      (body.question = none ∨ body.question = some "" ∨
       body.chunks = none ∨ body.chunks = some [] ∨
       (∃ q, body.question = some q ∧ MAX_QUESTION_LENGTH < q.length) ∨
       (∃ cs, body.chunks = some cs ∧ MAX_CHUNKS_ACCEPTED < cs.length) ∨
       (∃ cs, body.chunks = some cs ∧ sanitizeChunks cs = [])) →
      ∃ msg, handleAsk env claude body = .error 400 msg) ∧
    (∀ (env : Env) (claude : String → ClaudeResult) (question : String)
      (chunks : List RawChunk) (key : String),
      question ≠ "" → question.length ≤ MAX_QUESTION_LENGTH →
      chunks ≠ [] → chunks.length ≤ MAX_CHUNKS_ACCEPTED →
      sanitizeChunks chunks ≠ [] →
      env.ANTHROPIC_API_KEY = some key →
      (∀ msg, claude msg = .httpError ∨ claude msg = .ok none) →
      ∃ msg, handleAsk env claude ⟨some question, some chunks⟩ =
        .error 502 msg) := by
  constructor
  · intro env claude body hcond
    obtain ⟨oq, ocs⟩ := body
    rcases hcond with h | h | h | h | ⟨q, hq, hlong⟩ | ⟨cs, hcs, hmany⟩ |
      ⟨cs, hcs, hsan⟩
    · subst h
      exact ⟨"Missing or invalid question", by rw [handleAsk]⟩
    · subst h
      exact ⟨"Missing or invalid question", by rw [handleAsk]; simp⟩
    · subst h
      cases oq with
      | none => exact ⟨"Missing or invalid question", by rw [handleAsk]⟩
      | some q =>
        by_cases hqe : q = ""
        · exact ⟨"Missing or invalid question", by rw [handleAsk]; simp [hqe]⟩
        · exact ⟨"Missing or empty chunks array", by rw [handleAsk]; simp [hqe]⟩
    · subst h
      cases oq with
      | none => exact ⟨"Missing or invalid question", by rw [handleAsk]⟩
      | some q =>
        by_cases hqe : q = ""
        · exact ⟨"Missing or invalid question", by rw [handleAsk]; simp [hqe]⟩
        · exact ⟨"Missing or empty chunks array", by rw [handleAsk]; simp [hqe]⟩
    · subst hq
      by_cases hqe : q = ""
      · exact ⟨"Missing or invalid question", by rw [handleAsk]; simp [hqe]⟩
      · cases ocs with
        | none => exact ⟨"Missing or empty chunks array", by rw [handleAsk]; simp [hqe]⟩
        | some cs =>
          by_cases hce : cs = []
          · exact ⟨"Missing or empty chunks array",
              by rw [handleAsk]; simp [hqe, hce]⟩
          · exact ⟨"Question too long. Maximum is 1000 characters.",
              by rw [handleAsk]; simp [hqe, hce, hlong]⟩
    · subst hcs
      have hce : cs ≠ [] := by
        intro h0
        rw [h0] at hmany
        simp [MAX_CHUNKS_ACCEPTED] at hmany
      cases oq with
      | none => exact ⟨"Missing or invalid question", by rw [handleAsk]⟩
      | some q =>
        by_cases hqe : q = ""
        · exact ⟨"Missing or invalid question", by rw [handleAsk]; simp [hqe]⟩
        · by_cases hlong : MAX_QUESTION_LENGTH < q.length
          · exact ⟨"Question too long. Maximum is 1000 characters.",
              by rw [handleAsk]; simp [hqe, hce, hlong]⟩
          · exact ⟨"Too many chunks. Maximum is 100.",
              by rw [handleAsk]; simp [hqe, hce, hlong, hmany]⟩
    · subst hcs
      cases oq with
      | none => exact ⟨"Missing or invalid question", by rw [handleAsk]⟩
      | some q =>
        by_cases hqe : q = ""
        · exact ⟨"Missing or invalid question", by rw [handleAsk]; simp [hqe]⟩
        · by_cases hce : cs = []
          · exact ⟨"Missing or empty chunks array",
              by rw [handleAsk]; simp [hqe, hce]⟩
          · by_cases hlong : MAX_QUESTION_LENGTH < q.length
            · exact ⟨"Question too long. Maximum is 1000 characters.",
                by rw [handleAsk]; simp [hqe, hce, hlong]⟩
            · by_cases hmany : MAX_CHUNKS_ACCEPTED < cs.length
              · exact ⟨"Too many chunks. Maximum is 100.",
                  by rw [handleAsk]; simp [hqe, hce, hlong, hmany]⟩
              · exact ⟨"No valid chunks provided",
                  by rw [handleAsk]; simp [hqe, hce, hlong, hmany, hsan]⟩
  · intro env claude question chunks key hq hql hne hcount hsan hkey hcf
    rw [handleAsk_valid env claude question chunks key hq hql hne hcount hsan hkey]
    cases hAI : env.AI with
    | none =>
      rcases hcf (buildUserMessage question
          ((sanitizeChunks chunks).take RERANK_TOP_N)) with h | h
      · exact ⟨"AI service temporarily unavailable", by simp only [hAI, h]⟩
      · exact ⟨"AI service returned an unexpected response", by simp only [hAI, h]⟩
    | some ai =>
      rcases hcf (buildUserMessage question
          ((rerankChunks ai question (sanitizeChunks chunks)).chunks.take
            RERANK_TOP_N)) with h | h
      · exact ⟨"AI service temporarily unavailable", by simp only [hAI, h]⟩
      · exact ⟨"AI service returned an unexpected response", by simp only [hAI, h]⟩

/-- Witness for C9: an empty body is a 400, and a valid request whose
text-generation call fails is a 502. -/
theorem error_status_separation_witness :
    (∃ msg, handleAsk ⟨none, none⟩ (fun _ => .httpError) ⟨none, none⟩ =
      .error 400 msg) ∧
    (∃ msg, handleAsk ⟨none, some "k"⟩ (fun _ => .httpError)
      ⟨some "q", some [⟨some "id1", none, some "t1"⟩]⟩ = .error 502 msg) :=
  ⟨error_status_separation.1 ⟨none, none⟩ (fun _ => .httpError) ⟨none, none⟩
    (Or.inl rfl),
   error_status_separation.2 ⟨none, some "k"⟩ (fun _ => .httpError) "q"
    [⟨some "id1", none, some "t1"⟩] "k" (by decide) (by decide) (by decide)
    (by decide) (by decide) rfl (fun _ => Or.inl rfl)⟩

/- ─── C2 (corrected) ─── -/

/-- Counterexample to C2 as stated: a request whose question is a non-empty
string of 1001 characters (above `MAX_QUESTION_LENGTH` = 1000) with a valid
candidate is rejected with a 400 validation error — it is not truncated and
processed. -/
theorem long_question_rejected_cex :
    handleAsk ⟨none, some "k"⟩ (fun _ => .ok (some "ans"))
      ⟨some (String.mk (List.replicate 1001 'a')),
        some [⟨some "i", none, some "t"⟩]⟩ =
      .error 400 "Question too long. Maximum is 1000 characters." := by
  have hqe : String.mk (List.replicate 1001 'a') ≠ "" := by decide
  have hlong : MAX_QUESTION_LENGTH < (String.mk (List.replicate 1001 'a')).length := by
    rw [String.length_mk, List.length_replicate]
    norm_num [MAX_QUESTION_LENGTH]
  have hne : ([⟨some "i", none, some "t"⟩] : List RawChunk) ≠ [] := by decide
  rw [handleAsk]
  simp only [if_neg hqe, if_neg hne, if_pos hlong]

/-- C2 amended: a non-empty question longer than `MAX_QUESTION_LENGTH` is
rejected with the "Question too long" 400 validation error (the
re-truncation at the prompt-building step is a no-op, since only questions
within the limit reach it). -/
theorem long_question_rejected (env : Env) (claude : String → ClaudeResult)
    (question : String) (chunks : List RawChunk)
    (hq : question ≠ "") (hne : chunks ≠ [])
    (hlong : MAX_QUESTION_LENGTH < question.length) :
    handleAsk env claude ⟨some question, some chunks⟩ =
      .error 400 "Question too long. Maximum is 1000 characters." := by
  rw [handleAsk]
  simp only [if_neg hq, if_neg hne, if_pos hlong]

/-- Witness for the amended C2. -/
theorem long_question_rejected_witness :
    handleAsk ⟨none, none⟩ (fun _ => .httpError)
      ⟨some (String.mk (List.replicate 1001 'b')),
        some [⟨some "i", none, some "t"⟩]⟩ =
      .error 400 "Question too long. Maximum is 1000 characters." :=
  long_question_rejected ⟨none, none⟩ (fun _ => .httpError)
    (String.mk (List.replicate 1001 'b')) [⟨some "i", none, some "t"⟩]
    (by decide) (by decide)
    (by rw [String.length_mk, List.length_replicate]
        norm_num [MAX_QUESTION_LENGTH])

end OCP
